import Mathlib

/-!
# Functional options over the tracing and metrics SDK

A shallow embedding of `telemetry_trace/trace.go` and `telemetry_metric/metric.go`.

* A Go option `func(*[]T) error` becomes a function from the list it receives to the list
  it leaves behind together with the error it returns (`none` for `nil`).
* The SDK (exporters, resource, batcher, periodic reader, provider constructor) is not
  part of the repository.  Its values are recorded as data: a call such as
  `trace.WithBatcher(exporter)` is the constructor `trace.TracerProviderOption.WithBatcher`.
  The fallible SDK calls (`stdouttrace.New`, `zipkin.New`, ...) are the fields of an
  environment record, so that every outcome of the surrounding world is covered.
* `time.Duration` is an `int64`; its product is taken modulo `2^64`.
-/

/-! ## SDK values used by the two packages -/

/-- Go `attribute.KeyValue` restricted to string values. -/
structure attr.KeyValue where
  Key : String
  Value : String
deriving DecidableEq, Repr

/-- Go `attribute.String(k, v)`. -/
def attr.Str (k v : String) : attr.KeyValue := ⟨k, v⟩

/-- Go `attribute.Key.String(v)`, the key being a plain string. -/
def attr.Key.Str (k v : String) : attr.KeyValue := ⟨k, v⟩

/-- Go `semconv.SchemaURL` of semconv v1.4.0. -/
def semconv.SchemaURL : String := "https://opentelemetry.io/schemas/1.4.0"

/-- Go `semconv.ServiceNameKey` of semconv v1.4.0. -/
def semconv.ServiceNameKey : String := "service.name"

/-- Go `semconv.ServiceVersionKey` of semconv v1.4.0. -/
def semconv.ServiceVersionKey : String := "service.version"

/-- Resource descriptor as requested from the SDK: schema URL and attributes. -/
structure resource.Resource where
  schemaURL : String
  attrs : List attr.KeyValue
deriving DecidableEq, Repr

/-- Go `resource.NewWithAttributes(schemaURL, attrs...)`. -/
def resource.NewWithAttributes (schemaURL : String) (attrs : List attr.KeyValue) :
    resource.Resource := ⟨schemaURL, attrs⟩

/-- Go `trace.TracerProviderOption`: the options this package creates (`WithBatcher`,
`WithResource`, `WithSampler`) and, as `Other`, any further option of the SDK. -/
inductive trace.TracerProviderOption (X S : Type) where
  | WithBatcher (e : X)
  | WithResource (r : resource.Resource)
  | WithSampler (s : S)
  | Other (name : String)
deriving DecidableEq, Repr

/-- Go `stdouttrace.Option`. -/
inductive stdouttrace.Option (W : Type) where
  | WithWriter (w : W)
  | WithPrettyPrint
  | WithoutTimestamps
deriving DecidableEq, Repr

/-- Go `jaeger.CollectorEndpointOption`. -/
inductive jaeger.CollectorEndpointOption where
  | WithEndpoint (endpoint : String)
deriving DecidableEq, Repr

/-- Go `jaeger.EndpointOption`. -/
inductive jaeger.EndpointOption where
  | WithCollectorEndpoint (options : List jaeger.CollectorEndpointOption)
deriving DecidableEq, Repr

/-- Go `otlptracehttp.Option`. -/
inductive otlptracehttp.Option where
  | WithEndpoint (endpoint : String)
  | WithInsecure
deriving DecidableEq, Repr

/-- Go `otlptracegrpc.Option`; the reconnection period is a `time.Duration`,
a count of nanoseconds. -/
inductive otlptracegrpc.Option where
  | WithEndpoint (endpoint : String)
  | WithInsecure
  | WithReconnectionPeriod (rp : Int)
deriving DecidableEq, Repr

/-- Go `otlptrace.Client`, as built by `otlptracehttp.NewClient` or
`otlptracegrpc.NewClient`. -/
inductive otlptrace.Client where
  | http (opts : List otlptracehttp.Option)
  | grpc (opts : List otlptracegrpc.Option)
deriving DecidableEq, Repr

/-- Go `otlptracehttp.NewClient(opts...)`. -/
def otlptracehttp.NewClient (opts : List otlptracehttp.Option) : otlptrace.Client :=
  otlptrace.Client.http opts

/-- Go `otlptracegrpc.NewClient(opts...)`. -/
def otlptracegrpc.NewClient (opts : List otlptracegrpc.Option) : otlptrace.Client :=
  otlptrace.Client.grpc opts

/-- Go `metric.Reader`, as built by `metric.NewPeriodicReader(exporter)`. -/
inductive metric.Reader (X : Type) where
  | PeriodicReader (exporter : X)
deriving DecidableEq, Repr

/-- Go `metric.NewPeriodicReader(exporter)`. -/
def metric.NewPeriodicReader {X : Type} (exporter : X) : metric.Reader X :=
  metric.Reader.PeriodicReader exporter

/-- Go `metric.Option`: the options this package creates (`WithReader`, `WithResource`)
and, as `Other`, any further option of the SDK. -/
inductive metric.Option (X : Type) where
  | WithReader (r : metric.Reader X)
  | WithResource (r : resource.Resource)
  | Other (name : String)
deriving DecidableEq, Repr

/-- Go `json.Encoder` after `json.NewEncoder(w)` and `SetIndent(lead, indent)`. -/
structure json.Encoder (W : Type) where
  w : W
  lead : String
  indent : String
deriving DecidableEq, Repr

/-- Go `json.NewEncoder(w)`. -/
def json.NewEncoder {W : Type} (w : W) : json.Encoder W := ⟨w, "", ""⟩

/-- Go `(*json.Encoder).SetIndent(lead, indent)`. -/
def json.Encoder.SetIndent {W : Type} (enc : json.Encoder W) (lead indent : String) :
    json.Encoder W := ⟨enc.w, lead, indent⟩

/-- Go `stdoutmetric.Option`. -/
inductive stdoutmetric.Option (W : Type) where
  | WithEncoder (enc : json.Encoder W)
deriving DecidableEq, Repr

/-- Go `otlpmetrichttp.Option`. -/
inductive otlpmetrichttp.Option where
  | WithEndpoint (endpoint : String)
  | WithInsecure
deriving DecidableEq, Repr

/-! ## `time.Duration` -/

/-- Reduction of an integer to the signed 64-bit range, as Go does on overflow. -/
def time.wrapInt64 (x : Int) : Int :=
  (x + 9223372036854775808) % 18446744073709551616 - 9223372036854775808

/-- Go `time.Second`, in nanoseconds. -/
def time.Second : Int := 1000000000

/-- Go `a * b` on two `time.Duration` values. -/
def time.Duration.mul (a b : Int) : Int := time.wrapInt64 (a * b)

/-! ## Spans -/

/-- One hexadecimal digit, lower case, as `encoding/hex` writes it. -/
def otel_trace.hexDigit (n : Nat) : Char :=
  "0123456789abcdef".toList.getD n '0'

/-- Go `hex.EncodeToString`: two digits per byte. -/
def otel_trace.hexEncode (bytes : List (Fin 256)) : String :=
  String.mk (bytes.flatMap fun b =>
    [otel_trace.hexDigit (b.val / 16), otel_trace.hexDigit (b.val % 16)])

/-- Go `trace.TraceID` (16 bytes in the SDK). -/
structure otel_trace.TraceID where
  bytes : List (Fin 256)
deriving DecidableEq, Repr

/-- Go `trace.SpanID` (8 bytes in the SDK). -/
structure otel_trace.SpanID where
  bytes : List (Fin 256)
deriving DecidableEq, Repr

/-- Go `TraceID.String()`. -/
def otel_trace.TraceID.String (t : otel_trace.TraceID) : String :=
  otel_trace.hexEncode t.bytes

/-- Go `SpanID.String()`. -/
def otel_trace.SpanID.String (s : otel_trace.SpanID) : String :=
  otel_trace.hexEncode s.bytes

/-- Go `trace.SpanContext`, with its two identifiers. -/
structure otel_trace.SpanContext where
  traceID : otel_trace.TraceID
  spanID : otel_trace.SpanID
deriving DecidableEq, Repr

/-- Go `SpanContext.TraceID()`. -/
def otel_trace.SpanContext.TraceID (sc : otel_trace.SpanContext) : otel_trace.TraceID :=
  sc.traceID

/-- Go `SpanContext.SpanID()`. -/
def otel_trace.SpanContext.SpanID (sc : otel_trace.SpanContext) : otel_trace.SpanID :=
  sc.spanID

/-- State of a live span: its context, its name and whether `End` was called. -/
structure otel_trace.Span where
  spanContext : otel_trace.SpanContext
  name : String
  ended : Bool
deriving DecidableEq, Repr

/-- Go `Span.SpanContext()`: the accessor of the span interface.  It returns the context
and the span as it is afterwards. -/
def otel_trace.Span.SpanContext (s : otel_trace.Span) :
    otel_trace.SpanContext × otel_trace.Span :=
  (s.spanContext, s)

/-! ## Builders -/

/-- Outcome of one builder call: the returned pair `(provider, err)` (`none` for `nil`),
and two observations of the run: the positions of the options that were invoked, in the
order of invocation, and the argument list of every call of the SDK constructor. -/
structure telemetry.BuildResult (E Err P : Type) where
  provider : Option P
  err : Option Err
  invoked : List Nat
  sdkCalls : List (List E)
deriving DecidableEq, Repr

namespace telemetry_trace

/-- Go `type tracerProviderOption func(*[]trace.TracerProviderOption) error`. -/
abbrev tracerProviderOption (E Err : Type) : Type := List E → List E × Option Err

/-- The `for _, op := range opts` loop of `NewTracerProvider`, followed by the call of
the SDK constructor `trace.NewTracerProvider`, here `sdkNew`. -/
def NewTracerProvider.loop {E Err P : Type} (sdkNew : List E → P) :
    List (tracerProviderOption E Err) → Nat → List E → List Nat →
      telemetry.BuildResult E Err P
  | [], _, openTelemetryOptions, invoked =>
      ⟨some (sdkNew openTelemetryOptions), none, invoked, [openTelemetryOptions]⟩
  | op :: rest, idx, openTelemetryOptions, invoked =>
      match op openTelemetryOptions with
      | (_, some err) => ⟨none, some err, invoked ++ [idx], []⟩
      | (openTelemetryOptions1, none) =>
          NewTracerProvider.loop sdkNew rest (idx + 1) openTelemetryOptions1 (invoked ++ [idx])

/-- Go `NewTracerProvider(opts ...tracerProviderOption)`. -/
def NewTracerProvider {E Err P : Type} (sdkNew : List E → P)
    (opts : List (tracerProviderOption E Err)) : telemetry.BuildResult E Err P :=
  NewTracerProvider.loop sdkNew opts 0 [] []

/-- The fallible SDK calls made by the trace options. -/
structure Env (W X Ctx Err : Type) where
  stdouttrace_New : List (stdouttrace.Option W) → Except Err X
  zipkin_New : String → Except Err X
  jaeger_New : jaeger.EndpointOption → Except Err X
  otlptrace_New : Ctx → otlptrace.Client → Except Err X

variable {W X S Ctx Err : Type}

/-- Go `WithConsoleExporter(w io.Writer)`. -/
def WithConsoleExporter (env : Env W X Ctx Err) (w : W) :
    tracerProviderOption (trace.TracerProviderOption X S) Err :=
  fun otelOptions =>
    match env.stdouttrace_New [stdouttrace.Option.WithWriter w,
        stdouttrace.Option.WithPrettyPrint, stdouttrace.Option.WithoutTimestamps] with
    | Except.error err => (otelOptions, some err)
    | Except.ok stdoutExporter =>
        (otelOptions ++ [trace.TracerProviderOption.WithBatcher stdoutExporter], none)

/-- Go `WithZipkinExporter(collectorUrl string)`. -/
def WithZipkinExporter (env : Env W X Ctx Err) (collectorUrl : String) :
    tracerProviderOption (trace.TracerProviderOption X S) Err :=
  fun otelOptions =>
    match env.zipkin_New collectorUrl with
    | Except.error err => (otelOptions, some err)
    | Except.ok exporter =>
        (otelOptions ++ [trace.TracerProviderOption.WithBatcher exporter], none)

/-- Go `WithJaegerExporter(jaegerUrl string)`. -/
def WithJaegerExporter (env : Env W X Ctx Err) (jaegerUrl : String) :
    tracerProviderOption (trace.TracerProviderOption X S) Err :=
  fun otelOptions =>
    match env.jaeger_New (jaeger.EndpointOption.WithCollectorEndpoint
        [jaeger.CollectorEndpointOption.WithEndpoint jaegerUrl]) with
    | Except.error err => (otelOptions, some err)
    | Except.ok jExporter =>
        (otelOptions ++ [trace.TracerProviderOption.WithBatcher jExporter], none)

/-- Go `WithOtlpHttpCollectorExporter(ctx, otlpCollectorExporterUrl)`. -/
def WithOtlpHttpCollectorExporter (env : Env W X Ctx Err) (ctx : Ctx)
    (otlpCollectorExporterUrl : String) :
    tracerProviderOption (trace.TracerProviderOption X S) Err :=
  fun otelOptions =>
    let client := otlptracehttp.NewClient
      [otlptracehttp.Option.WithEndpoint otlpCollectorExporterUrl,
       otlptracehttp.Option.WithInsecure]
    match env.otlptrace_New ctx client with
    | Except.error err => (otelOptions, some err)
    | Except.ok exporter =>
        (otelOptions ++ [trace.TracerProviderOption.WithBatcher exporter], none)

/-- Go `WithOtlpGrpcCollectorExporter(ctx, otlpCollectorExporterUrl, reconnectionSeconds)`. -/
def WithOtlpGrpcCollectorExporter (env : Env W X Ctx Err) (ctx : Ctx)
    (otlpCollectorExporterUrl : String) (reconnectionSeconds : Int) :
    tracerProviderOption (trace.TracerProviderOption X S) Err :=
  fun otelOptions =>
    let client := otlptracegrpc.NewClient
      [otlptracegrpc.Option.WithEndpoint otlpCollectorExporterUrl,
       otlptracegrpc.Option.WithInsecure,
       otlptracegrpc.Option.WithReconnectionPeriod
         (time.Duration.mul reconnectionSeconds time.Second)]
    match env.otlptrace_New ctx client with
    | Except.error err => (otelOptions, some err)
    | Except.ok exporter =>
        (otelOptions ++ [trace.TracerProviderOption.WithBatcher exporter], none)

/-- Go `WithResource(serviceName, serviceVersion, environment string)`. -/
def WithResource (serviceName serviceVersion environment : String) :
    tracerProviderOption (trace.TracerProviderOption X S) Err :=
  fun otelOptions =>
    let r := resource.NewWithAttributes semconv.SchemaURL
      [attr.Key.Str semconv.ServiceNameKey serviceName,
       attr.Key.Str semconv.ServiceVersionKey serviceVersion,
       attr.Str "environment" environment]
    (otelOptions ++ [trace.TracerProviderOption.WithResource r], none)

/-- Go `WithSampler(sampler trace.Sampler)`. -/
def WithSampler (sampler : S) :
    tracerProviderOption (trace.TracerProviderOption X S) Err :=
  fun otelOptions =>
    (otelOptions ++ [trace.TracerProviderOption.WithSampler sampler], none)

/-- Go `WithOpenTelemetryTracerProviderOption(opt trace.TracerProviderOption)`. -/
def WithOpenTelemetryTracerProviderOption (opt : trace.TracerProviderOption X S) :
    tracerProviderOption (trace.TracerProviderOption X S) Err :=
  fun otelOptions => (otelOptions ++ [opt], none)

/-- Go `type SpanContextData struct`. -/
structure SpanContextData where
  SpanId : String
  TraceId : String
deriving DecidableEq, Repr

/-- Go `GetContextData(span otel_trace.Span)`: the span is read twice through its
accessor; the span as it is after the two reads is returned next to the result. -/
def GetContextData (span : otel_trace.Span) : SpanContextData × otel_trace.Span :=
  let r1 := span.SpanContext
  let r2 := r1.2.SpanContext
  (⟨r1.1.SpanID.String, r2.1.TraceID.String⟩, r2.2)

/-- One call of an option constructor of package `telemetry_trace`, with its arguments. -/
inductive Call (W X S Ctx : Type) where
  | WithConsoleExporter (w : W)
  | WithZipkinExporter (collectorUrl : String)
  | WithJaegerExporter (jaegerUrl : String)
  | WithOtlpHttpCollectorExporter (ctx : Ctx) (otlpCollectorExporterUrl : String)
  | WithOtlpGrpcCollectorExporter (ctx : Ctx) (otlpCollectorExporterUrl : String)
      (reconnectionSeconds : Int)
  | WithResource (serviceName serviceVersion environment : String)
  | WithSampler (sampler : S)
  | WithOpenTelemetryTracerProviderOption (opt : trace.TracerProviderOption X S)

/-- The option a constructor call returns. -/
def Call.build (env : Env W X Ctx Err) :
    Call W X S Ctx → tracerProviderOption (trace.TracerProviderOption X S) Err
  | Call.WithConsoleExporter w => telemetry_trace.WithConsoleExporter env w
  | Call.WithZipkinExporter u => telemetry_trace.WithZipkinExporter env u
  | Call.WithJaegerExporter u => telemetry_trace.WithJaegerExporter env u
  | Call.WithOtlpHttpCollectorExporter ctx u =>
      telemetry_trace.WithOtlpHttpCollectorExporter env ctx u
  | Call.WithOtlpGrpcCollectorExporter ctx u r =>
      telemetry_trace.WithOtlpGrpcCollectorExporter env ctx u r
  | Call.WithResource n v e => telemetry_trace.WithResource n v e
  | Call.WithSampler s => telemetry_trace.WithSampler s
  | Call.WithOpenTelemetryTracerProviderOption opt =>
      telemetry_trace.WithOpenTelemetryTracerProviderOption opt

/-- Whether a constructor call is one of the five exporter constructors. -/
def Call.isExporter : Call W X S Ctx → Bool
  | Call.WithConsoleExporter _ => true
  | Call.WithZipkinExporter _ => true
  | Call.WithJaegerExporter _ => true
  | Call.WithOtlpHttpCollectorExporter _ _ => true
  | Call.WithOtlpGrpcCollectorExporter _ _ _ => true
  | _ => false

end telemetry_trace

namespace telemetry_metric

/-- Go `type meterProviderOption func(*[]metric.Option) error`. -/
abbrev meterProviderOption (E Err : Type) : Type := List E → List E × Option Err

/-- The `for _, op := range opts` loop of `NewMeterProvider`, followed by the call of
the SDK constructor `metric.NewMeterProvider`, here `sdkNew`. -/
def NewMeterProvider.loop {E Err P : Type} (sdkNew : List E → P) :
    List (meterProviderOption E Err) → Nat → List E → List Nat →
      telemetry.BuildResult E Err P
  | [], _, meterProviderOptions, invoked =>
      ⟨some (sdkNew meterProviderOptions), none, invoked, [meterProviderOptions]⟩
  | op :: rest, idx, meterProviderOptions, invoked =>
      match op meterProviderOptions with
      | (_, some err) => ⟨none, some err, invoked ++ [idx], []⟩
      | (meterProviderOptions1, none) =>
          NewMeterProvider.loop sdkNew rest (idx + 1) meterProviderOptions1 (invoked ++ [idx])

/-- Go `NewMeterProvider(opts ...meterProviderOption)`. -/
def NewMeterProvider {E Err P : Type} (sdkNew : List E → P)
    (opts : List (meterProviderOption E Err)) : telemetry.BuildResult E Err P :=
  NewMeterProvider.loop sdkNew opts 0 [] []

/-- The fallible SDK calls made by the metric options. -/
structure Env (W X Ctx Err : Type) where
  otlpmetrichttp_New : Ctx → List otlpmetrichttp.Option → Except Err X
  stdoutmetric_New : List (stdoutmetric.Option W) → Except Err X

variable {W X Ctx Err : Type}

/-- Go `WithOtlpHttpCollectorExporter(ctx, endpoint)`. -/
def WithOtlpHttpCollectorExporter (env : Env W X Ctx Err) (ctx : Ctx) (endpoint : String) :
    meterProviderOption (metric.Option X) Err :=
  fun otelOptions =>
    match env.otlpmetrichttp_New ctx
        [otlpmetrichttp.Option.WithEndpoint endpoint, otlpmetrichttp.Option.WithInsecure] with
    | Except.error err => (otelOptions, some err)
    | Except.ok exporter =>
        (otelOptions ++ [metric.Option.WithReader (metric.NewPeriodicReader exporter)], none)

/-- Go `WithConsoleExporter(w io.Writer)`. -/
def WithConsoleExporter (env : Env W X Ctx Err) (w : W) :
    meterProviderOption (metric.Option X) Err :=
  fun otelOptions =>
    let enc := (json.NewEncoder w).SetIndent "" "\t"
    match env.stdoutmetric_New [stdoutmetric.Option.WithEncoder enc] with
    | Except.error err => (otelOptions, some err)
    | Except.ok exporter =>
        (otelOptions ++ [metric.Option.WithReader (metric.NewPeriodicReader exporter)], none)

/-- Go `WithResource(serviceName, serviceVersion, environment string)`. -/
def WithResource (serviceName serviceVersion environment : String) :
    meterProviderOption (metric.Option X) Err :=
  fun otelOptions =>
    let r := resource.NewWithAttributes semconv.SchemaURL
      [attr.Key.Str semconv.ServiceNameKey serviceName,
       attr.Key.Str semconv.ServiceVersionKey serviceVersion,
       attr.Str "environment" environment]
    (otelOptions ++ [metric.Option.WithResource r], none)

/-- Go `WithOpentelemetryMetricOption(opts []metric.Option)`: the inner loop appends the
elements of `opts` one by one. -/
def WithOpentelemetryMetricOption (opts : List (metric.Option X)) :
    meterProviderOption (metric.Option X) Err :=
  fun otelOptions => (opts.foldl (fun acc opt => acc ++ [opt]) otelOptions, none)

/-- One call of an option constructor of package `telemetry_metric`, with its arguments. -/
inductive Call (W X Ctx : Type) where
  | WithOtlpHttpCollectorExporter (ctx : Ctx) (endpoint : String)
  | WithConsoleExporter (w : W)
  | WithResource (serviceName serviceVersion environment : String)
  | WithOpentelemetryMetricOption (opts : List (metric.Option X))

/-- The option a constructor call returns. -/
def Call.build (env : Env W X Ctx Err) :
    Call W X Ctx → meterProviderOption (metric.Option X) Err
  | Call.WithOtlpHttpCollectorExporter ctx u =>
      telemetry_metric.WithOtlpHttpCollectorExporter env ctx u
  | Call.WithConsoleExporter w => telemetry_metric.WithConsoleExporter env w
  | Call.WithResource n v e => telemetry_metric.WithResource n v e
  | Call.WithOpentelemetryMetricOption opts =>
      telemetry_metric.WithOpentelemetryMetricOption opts

/-- Whether a constructor call is one of the two exporter constructors. -/
def Call.isExporter : Call W X Ctx → Bool
  | Call.WithOtlpHttpCollectorExporter _ _ => true
  | Call.WithConsoleExporter _ => true
  | _ => false

/-- Number of entries a successful constructor call adds to the list. -/
def Call.entries : Call W X Ctx → Nat
  | Call.WithOpentelemetryMetricOption opts => opts.length
  | _ => 1

end telemetry_metric

/-! ## Concrete inputs -/

namespace telemetry.sample

/-- An option over `Nat` entries that appends `1`. -/
def appendOne : List Nat → List Nat × Option String := fun L => (L ++ [1], none)

/-- An option over `Nat` entries that appends `2` and `3`. -/
def appendTwoThree : List Nat → List Nat × Option String := fun L => (L ++ [2, 3], none)

/-- A trace environment in which every exporter construction succeeds. -/
def traceEnvOk : telemetry_trace.Env String String Unit String :=
  ⟨fun _ => Except.ok "stdout", fun _ => Except.ok "zipkin", fun _ => Except.ok "jaeger",
    fun _ _ => Except.ok "otlp"⟩

/-- A trace environment in which the Zipkin exporter cannot be constructed. -/
def traceEnvZipkinDown : telemetry_trace.Env String String Unit String :=
  ⟨fun _ => Except.ok "stdout", fun _ => Except.error "zipkin: invalid collector URL",
    fun _ => Except.ok "jaeger", fun _ _ => Except.ok "otlp"⟩

/-- A metric environment in which every exporter construction succeeds. -/
def metricEnvOk : telemetry_metric.Env String String Unit String :=
  ⟨fun _ _ => Except.ok "otlp", fun _ => Except.ok "stdout"⟩

end telemetry.sample

/-! ## Lemmas on the two loops -/

/-- Splitting a list at two positions `i < j`. -/
theorem telemetry.split_at_two {α : Type} (l : List α) (i j : Nat) (hij : i < j)
    (hi : i < l.length) (hj : j < l.length) :
    l = l.take i ++ l[i] :: ((l.take j).drop (i + 1) ++ l[j] :: l.drop (j + 1)) := by
  have h1 : l = l.take j ++ l.drop j := (List.take_append_drop j l).symm
  have h2 : l.drop j = l[j] :: l.drop (j + 1) := List.drop_eq_getElem_cons hj
  have hi2 : i < (l.take j).length := by
    rw [List.length_take]; omega
  have h3 : l.take j = (l.take j).take i ++ (l.take j).drop i :=
    (List.take_append_drop i (l.take j)).symm
  have h4 : (l.take j).drop i = (l.take j)[i] :: (l.take j).drop (i + 1) :=
    List.drop_eq_getElem_cons hi2
  have h5 : (l.take j)[i] = l[i] := by
    simp [List.getElem_take]
  have h6 : (l.take j).take i = l.take i := by
    rw [List.take_take, Nat.min_eq_left (Nat.le_of_lt hij)]
  rw [h4, h5, h6] at h3
  calc l = l.take j ++ l.drop j := h1
    _ = (l.take i ++ l[i] :: (l.take j).drop (i + 1)) ++ l[j] :: l.drop (j + 1) := by
        rw [← h3, ← h2]
    _ = _ := by simp

/-- The trace loop on options that all succeed and only append. -/
theorem telemetry_trace.loop_of_appends {E Err P : Type} (sdkNew : List E → P)
    (opts : List (telemetry_trace.tracerProviderOption E Err)) (apps : List (List E))
    (h : List.Forall₂ (fun op a => ∀ L, op L = (L ++ a, none)) opts apps)
    (idx : Nat) (acc : List E) (inv : List Nat) :
    telemetry_trace.NewTracerProvider.loop sdkNew opts idx acc inv =
      ⟨some (sdkNew (acc ++ apps.flatten)), none, inv ++ List.range' idx opts.length,
        [acc ++ apps.flatten]⟩ := by
  induction h generalizing idx acc inv with
  | nil => simp [telemetry_trace.NewTracerProvider.loop]
  | cons hop _ ih =>
      simp only [telemetry_trace.NewTracerProvider.loop, hop acc]
      rw [ih]
      simp [List.range'_succ, List.append_assoc]

/-- The two loops are the same function. -/
theorem telemetry_metric.loop_eq_trace_loop {E Err P : Type} (sdkNew : List E → P)
    (opts : List (List E → List E × Option Err)) (idx : Nat) (acc : List E)
    (inv : List Nat) :
    telemetry_metric.NewMeterProvider.loop sdkNew opts idx acc inv =
      telemetry_trace.NewTracerProvider.loop sdkNew opts idx acc inv := by
  induction opts generalizing idx acc inv with
  | nil => rfl
  | cons op rest ih =>
      simp only [telemetry_metric.NewMeterProvider.loop,
        telemetry_trace.NewTracerProvider.loop]
      rcases hr : op acc with ⟨l, _ | e⟩
      · simp only [ih]
      · rfl

/-- The trace loop on options that all succeed. -/
theorem telemetry_trace.loop_of_all_succeed {E Err P : Type} (sdkNew : List E → P)
    (opts : List (telemetry_trace.tracerProviderOption E Err))
    (h : ∀ op ∈ opts, ∀ L, (op L).2 = none)
    (idx : Nat) (acc : List E) (inv : List Nat) :
    telemetry_trace.NewTracerProvider.loop sdkNew opts idx acc inv =
      ⟨some (sdkNew (opts.foldl (fun L o => (o L).1) acc)), none,
        inv ++ List.range' idx opts.length, [opts.foldl (fun L o => (o L).1) acc]⟩ := by
  induction opts generalizing idx acc inv with
  | nil => simp [telemetry_trace.NewTracerProvider.loop]
  | cons o rest ih =>
      have ho : (o acc).2 = none := h o (List.mem_cons_self _ _) acc
      simp only [telemetry_trace.NewTracerProvider.loop, List.foldl_cons]
      rcases hr : o acc with ⟨l, _ | e1⟩
      · have hrec := ih (fun o1 h1 => h o1 (List.mem_cons_of_mem _ h1)) (idx + 1) l
          (inv ++ [idx])
        show telemetry_trace.NewTracerProvider.loop sdkNew rest (idx + 1) l (inv ++ [idx]) = _
        rw [hrec]
        simp [List.range'_succ, List.append_assoc]
      · rw [hr] at ho; cases ho

/-- Shape of the result of a trace option: an error with the list untouched, or one
appended entry, which is a batcher entry for the exporter constructors. -/
theorem telemetry_trace.trace_call_shape {W X S Ctx Err : Type}
    (env : telemetry_trace.Env W X Ctx Err) (c : telemetry_trace.Call W X S Ctx)
    (L : List (trace.TracerProviderOption X S)) :
    (∃ err, c.build env L = (L, some err)) ∨
    (∃ entry, c.build env L = (L ++ [entry], none) ∧
      (c.isExporter = true → ∃ x, entry = trace.TracerProviderOption.WithBatcher x)) := by
  cases c <;>
    simp only [telemetry_trace.Call.build, telemetry_trace.WithConsoleExporter,
      telemetry_trace.WithZipkinExporter, telemetry_trace.WithJaegerExporter,
      telemetry_trace.WithOtlpHttpCollectorExporter,
      telemetry_trace.WithOtlpGrpcCollectorExporter, telemetry_trace.WithResource,
      telemetry_trace.WithSampler, telemetry_trace.WithOpenTelemetryTracerProviderOption,
      telemetry_trace.Call.isExporter] <;>
    first
      | (split <;> simp)
      | simp

/-- The inner loop of the metrics passthrough appends the whole list. -/
theorem telemetry_metric.foldl_append_singleton {α : Type} (opts acc : List α) :
    opts.foldl (fun acc opt => acc ++ [opt]) acc = acc ++ opts := by
  induction opts generalizing acc with
  | nil => simp
  | cons o rest ih => simp [List.foldl_cons, ih]

/-- Shape of the result of a metric option: an error with the list untouched, or the
appended entries, a single periodic-reader entry for the exporter constructors. -/
theorem telemetry_metric.metric_call_shape {W X Ctx Err : Type}
    (env : telemetry_metric.Env W X Ctx Err) (c : telemetry_metric.Call W X Ctx)
    (L : List (metric.Option X)) :
    (∃ err, c.build env L = (L, some err)) ∨
    (∃ t, c.build env L = (L ++ t, none) ∧ t.length = c.entries ∧
      (c.isExporter = true →
        ∃ x, t = [metric.Option.WithReader (metric.NewPeriodicReader x)])) := by
  cases c <;>
    simp only [telemetry_metric.Call.build, telemetry_metric.WithConsoleExporter,
      telemetry_metric.WithOtlpHttpCollectorExporter, telemetry_metric.WithResource,
      telemetry_metric.WithOpentelemetryMetricOption,
      telemetry_metric.foldl_append_singleton,
      telemetry_metric.Call.isExporter, telemetry_metric.Call.entries] <;>
    first
      | (split <;> simp)
      | simp

/-! ## The claims -/

/-- C1: when every option succeeds and only appends (option `i` turns any list `L` into
`L ++ apps[i]`), the single list handed to the SDK constructor by `NewTracerProvider`,
and likewise by `NewMeterProvider`, is the concatenation of the appended entries in
argument order, starting from the empty list; hence for `i < j` the entries of option
`i` stand before the entries of option `j`. -/
theorem C1_builder_passes_concatenation {E Err P Q : Type}
    (sdkT : List E → P) (sdkM : List E → Q)
    (opts : List (List E → List E × Option Err)) (apps : List (List E))
    (h : List.Forall₂ (fun op a => ∀ L, op L = (L ++ a, none)) opts apps) :
    (telemetry_trace.NewTracerProvider sdkT opts).sdkCalls = [apps.flatten] ∧
    (telemetry_trace.NewTracerProvider sdkT opts).provider = some (sdkT apps.flatten) ∧
    (telemetry_metric.NewMeterProvider sdkM opts).sdkCalls = [apps.flatten] ∧
    (telemetry_metric.NewMeterProvider sdkM opts).provider = some (sdkM apps.flatten) ∧
    ∀ (i j : Nat) (_ : i < j) (hi : i < apps.length) (hj : j < apps.length),
      apps.flatten = (apps.take i).flatten ++ (apps[i] ++
        (((apps.take j).drop (i + 1)).flatten ++ (apps[j] ++ (apps.drop (j + 1)).flatten))) := by
  have hT := telemetry_trace.loop_of_appends sdkT opts apps h 0 [] []
  have hM := telemetry_trace.loop_of_appends sdkM opts apps h 0 [] []
  refine ⟨?_, ?_, ?_, ?_, ?_⟩
  · simp [telemetry_trace.NewTracerProvider, hT]
  · simp [telemetry_trace.NewTracerProvider, hT]
  · simp [telemetry_metric.NewMeterProvider, telemetry_metric.loop_eq_trace_loop, hM]
  · simp [telemetry_metric.NewMeterProvider, telemetry_metric.loop_eq_trace_loop, hM]
  · intro i j hij hi hj
    have hsplit := telemetry.split_at_two apps i j hij hi hj
    have hf := congrArg List.flatten hsplit
    rw [List.flatten_append, List.flatten_cons, List.flatten_append, List.flatten_cons] at hf
    exact hf

/-- Witness of C1: two options appending `[1]` and `[2, 3]`. -/
theorem C1_builder_passes_concatenation_witness :
    (telemetry_trace.NewTracerProvider (fun l => l)
        [telemetry.sample.appendOne, telemetry.sample.appendTwoThree]).sdkCalls
      = [[1, 2, 3]] ∧
    (telemetry_metric.NewMeterProvider (fun l => l)
        [telemetry.sample.appendOne, telemetry.sample.appendTwoThree]).sdkCalls
      = [[1, 2, 3]] := by
  have h := C1_builder_passes_concatenation (fun l => l) (fun l => l)
    [telemetry.sample.appendOne, telemetry.sample.appendTwoThree] [[1], [2, 3]]
    (List.Forall₂.cons (fun _ => rfl) (List.Forall₂.cons (fun _ => rfl) List.Forall₂.nil))
  exact ⟨h.1, h.2.2.1⟩

/-- C7: over one entry type and one SDK constructor, `NewMeterProvider` and
`NewTracerProvider` are the same function of the option sequence: same returned provider
and error, same options invoked in the same order, same list handed to the constructor. -/
theorem C7_meter_builder_eq_tracer_builder {E Err P : Type} (sdkNew : List E → P)
    (opts : List (List E → List E × Option Err)) :
    telemetry_metric.NewMeterProvider sdkNew opts =
      telemetry_trace.NewTracerProvider sdkNew opts := by
  unfold telemetry_metric.NewMeterProvider telemetry_trace.NewTracerProvider
  exact telemetry_metric.loop_eq_trace_loop sdkNew opts 0 [] []

/-- C5, as the code has it: neither passthrough option ever fails; the metrics option
`WithOpentelemetryMetricOption` takes a list `opts` and leaves `L ++ opts`, elements in
their order and unwrapped (empty and repeating lists included); the trace option
`WithOpenTelemetryTracerProviderOption` takes one SDK option `opt` and leaves
`L ++ [opt]`. -/
theorem C5_passthrough_appends_verbatim {X S Err : Type}
    (LM opts : List (metric.Option X)) (LT : List (trace.TracerProviderOption X S))
    (opt : trace.TracerProviderOption X S) :
    (telemetry_metric.WithOpentelemetryMetricOption opts LM
      : List (metric.Option X) × Option Err) = (LM ++ opts, none) ∧
    (telemetry_trace.WithOpenTelemetryTracerProviderOption opt LT
      : List (trace.TracerProviderOption X S) × Option Err) = (LT ++ [opt], none) := by
  constructor
  · simp [telemetry_metric.WithOpentelemetryMetricOption,
      telemetry_metric.foldl_append_singleton]
  · rfl

/-- C5 as stated fails for the trace passthrough: it is built from one SDK option, and no
choice of that option leaves the list `L ++ opts` for `L = []` and `opts = []`, nor for
`opts` of two elements. -/
theorem C5_trace_passthrough_takes_one_option :
    (¬ ∃ opt : trace.TracerProviderOption String String,
      ((telemetry_trace.WithOpenTelemetryTracerProviderOption opt []
        : List (trace.TracerProviderOption String String) × Option String)).1
          = [] ++ []) ∧
    (¬ ∃ opt : trace.TracerProviderOption String String,
      ((telemetry_trace.WithOpenTelemetryTracerProviderOption opt []
        : List (trace.TracerProviderOption String String) × Option String)).1
          = [] ++ [trace.TracerProviderOption.Other "a",
                   trace.TracerProviderOption.Other "b"]) := by
  constructor
  · rintro ⟨opt, h⟩
    simp [telemetry_trace.WithOpenTelemetryTracerProviderOption] at h
  · rintro ⟨opt, h⟩
    simp [telemetry_trace.WithOpenTelemetryTracerProviderOption] at h

/-- C6: for every triple of strings and every list `L`, the trace and the metrics
`WithResource` return a nil error and append exactly one entry, a resource option whose
descriptor has the schema URL of semconv v1.4.0 and exactly the attributes
`service.name`, `service.version` and `environment` with the given strings unchanged;
the two packages build the same descriptor. -/
theorem C6_resource_option_infallible {X S Err : Type}
    (serviceName serviceVersion environment : String)
    (LT : List (trace.TracerProviderOption X S)) (LM : List (metric.Option X)) :
    (telemetry_trace.WithResource serviceName serviceVersion environment LT
      : List (trace.TracerProviderOption X S) × Option Err) =
      (LT ++ [trace.TracerProviderOption.WithResource
        ⟨"https://opentelemetry.io/schemas/1.4.0",
          [⟨"service.name", serviceName⟩, ⟨"service.version", serviceVersion⟩,
           ⟨"environment", environment⟩]⟩], none) ∧
    (telemetry_metric.WithResource serviceName serviceVersion environment LM
      : List (metric.Option X) × Option Err) =
      (LM ++ [metric.Option.WithResource
        ⟨"https://opentelemetry.io/schemas/1.4.0",
          [⟨"service.name", serviceName⟩, ⟨"service.version", serviceVersion⟩,
           ⟨"environment", environment⟩]⟩], none) := by
  constructor <;> rfl

/-- C8: `GetContextData` reads the span context only: the `TraceId` field is the text of
the trace identifier, the `SpanId` field is the text of the span identifier, the span is
returned as it was, and a second call on it gives the same pair of texts.  On the span
with trace identifier bytes `0a ff` and span identifier byte `01` the texts are `0aff`
and `01`. -/
theorem C8_GetContextData_pure_read (s : otel_trace.Span) :
    (telemetry_trace.GetContextData s).1.TraceId = s.spanContext.traceID.String ∧
    (telemetry_trace.GetContextData s).1.SpanId = s.spanContext.spanID.String ∧
    (telemetry_trace.GetContextData s).2 = s ∧
    (telemetry_trace.GetContextData (telemetry_trace.GetContextData s).2).1 =
      (telemetry_trace.GetContextData s).1 ∧
    (telemetry_trace.GetContextData ⟨⟨⟨[10, 255]⟩, ⟨[1]⟩⟩, "nested_operation", false⟩).1 =
      ⟨"01", "0aff"⟩ := by
  refine ⟨rfl, rfl, rfl, rfl, ?_⟩
  decide

/-- C9: for every option built by a constructor of either package and every list `L`:
when the option returns an error the list is exactly `L`; when it succeeds the list is
`L` followed by the new entries, exactly one for every trace constructor and for the
metrics exporter and resource constructors (a batcher entry for the trace exporters, a
periodic-reader entry for the metrics exporters), the given list for the metrics
passthrough.  In both cases `L` is an initial segment of the list. -/
theorem C9_options_only_append {W X S Ctx Err : Type}
    (envT : telemetry_trace.Env W X Ctx Err) (envM : telemetry_metric.Env W X Ctx Err)
    (cT : telemetry_trace.Call W X S Ctx) (cM : telemetry_metric.Call W X Ctx)
    (LT : List (trace.TracerProviderOption X S)) (LM : List (metric.Option X)) :
    (match cT.build envT LT with
      | (L1, some _) => L1 = LT
      | (L1, none) => ∃ entry, L1 = LT ++ [entry] ∧
          (cT.isExporter = true → ∃ x, entry = trace.TracerProviderOption.WithBatcher x)) ∧
    (match cM.build envM LM with
      | (L1, some _) => L1 = LM
      | (L1, none) => ∃ t, L1 = LM ++ t ∧ t.length = cM.entries ∧
          (cM.isExporter = true →
            ∃ x, t = [metric.Option.WithReader (metric.NewPeriodicReader x)])) ∧
    (∃ t, (cT.build envT LT).1 = LT ++ t) ∧ (∃ t, (cM.build envM LM).1 = LM ++ t) := by
  have hT := telemetry_trace.trace_call_shape envT cT LT
  have hM := telemetry_metric.metric_call_shape envM cM LM
  refine ⟨?_, ?_, ?_, ?_⟩
  · rcases hT with ⟨err, h⟩ | ⟨entry, h, hx⟩
    · rw [h]
    · rw [h]; exact ⟨entry, rfl, hx⟩
  · rcases hM with ⟨err, h⟩ | ⟨t, h, hl, hx⟩
    · rw [h]
    · rw [h]; exact ⟨t, rfl, hl, hx⟩
  · rcases hT with ⟨err, h⟩ | ⟨entry, h, _⟩
    · exact ⟨[], by rw [h]; simp⟩
    · exact ⟨[entry], by rw [h]⟩
  · rcases hM with ⟨err, h⟩ | ⟨t, h, _, _⟩
    · exact ⟨[], by rw [h]; simp⟩
    · exact ⟨t, by rw [h]⟩

/-- C10: `WithOtlpGrpcCollectorExporter` hands the gRPC client the period
`reconnectionSeconds * time.Second` reduced to 64 signed bits; for an `int64` argument
this is the exact product exactly when `|reconnectionSeconds| <= 9223372036`; the already
scaled argument `10 * time.Second` wraps to `-8446744073709551616`. -/
theorem C10_grpc_reconnection_period {W X S Ctx Err : Type}
    (env : telemetry_trace.Env W X Ctx Err) (ctx : Ctx) (url : String)
    (reconnectionSeconds : Int) (L : List (trace.TracerProviderOption X S))
    (hmin : -9223372036854775808 ≤ reconnectionSeconds)
    (hmax : reconnectionSeconds ≤ 9223372036854775807) :
    (telemetry_trace.WithOtlpGrpcCollectorExporter env ctx url reconnectionSeconds L =
      match env.otlptrace_New ctx (otlptracegrpc.NewClient
        [otlptracegrpc.Option.WithEndpoint url, otlptracegrpc.Option.WithInsecure,
         otlptracegrpc.Option.WithReconnectionPeriod
           (time.wrapInt64 (reconnectionSeconds * 1000000000))]) with
      | Except.error err => (L, some err)
      | Except.ok exporter =>
          (L ++ [trace.TracerProviderOption.WithBatcher exporter], none)) ∧
    (time.Duration.mul reconnectionSeconds time.Second = reconnectionSeconds * 1000000000 ↔
      |reconnectionSeconds| ≤ 9223372036) ∧
    time.Duration.mul (10 * time.Second) time.Second = -8446744073709551616 ∧
    time.Duration.mul (10 * time.Second) time.Second ≠ 10 * time.Second * time.Second := by
  refine ⟨rfl, ?_, by decide, by decide⟩
  rw [abs_le]
  simp only [time.Duration.mul, time.wrapInt64, time.Second]
  constructor
  · intro h
    constructor <;> omega
  · rintro ⟨h1, h2⟩
    omega

/-- Witness of C10: a reconnection interval of five seconds. -/
theorem C10_grpc_reconnection_period_witness :
    time.Duration.mul 5 time.Second = 5 * 1000000000 ↔ |(5 : Int)| ≤ 9223372036 :=
  (C10_grpc_reconnection_period telemetry.sample.traceEnvOk () "collector:4317" 5
    ([] : List (trace.TracerProviderOption String String)) (by decide) (by decide)).2.1

/-- When the trace loop reports an error it has not called the SDK constructor. -/
theorem telemetry_trace.loop_sdkCalls_of_err {E Err P : Type} (sdkNew : List E → P)
    (opts : List (telemetry_trace.tracerProviderOption E Err))
    (idx : Nat) (acc : List E) (inv : List Nat)
    (h : (telemetry_trace.NewTracerProvider.loop sdkNew opts idx acc inv).err ≠ none) :
    (telemetry_trace.NewTracerProvider.loop sdkNew opts idx acc inv).sdkCalls = [] := by
  induction opts generalizing idx acc inv with
  | nil => simp [telemetry_trace.NewTracerProvider.loop] at h
  | cons op rest ih =>
      simp only [telemetry_trace.NewTracerProvider.loop] at h ⊢
      rcases hr : op acc with ⟨l, _ | e⟩
      · rw [hr] at h
        exact ih (idx + 1) l (inv ++ [idx]) h
      · rfl

/-- Length of the list left by succeeding trace constructor calls. -/
theorem telemetry_trace.trace_foldl_build_length {W X S Ctx Err : Type}
    (env : telemetry_trace.Env W X Ctx Err) (cs : List (telemetry_trace.Call W X S Ctx))
    (h : ∀ c ∈ cs, ∀ L, ((c.build env L : _ × Option Err)).2 = none)
    (acc : List (trace.TracerProviderOption X S)) :
    ((cs.map (telemetry_trace.Call.build env)).foldl (fun L o => (o L).1) acc).length =
      acc.length + cs.length := by
  induction cs generalizing acc with
  | nil => simp
  | cons c rest ih =>
      have hc := h c (List.mem_cons_self _ _) acc
      simp only [List.map_cons, List.foldl_cons, List.length_cons]
      rw [ih (fun c1 h1 => h c1 (List.mem_cons_of_mem _ h1))]
      rcases telemetry_trace.trace_call_shape env c acc with ⟨err, he⟩ | ⟨entry, he, _⟩
      · rw [he] at hc; cases hc
      · rw [he]; simp; omega

/-- Length of the list left by succeeding metric constructor calls. -/
theorem telemetry_metric.metric_foldl_build_length {W X Ctx Err : Type}
    (env : telemetry_metric.Env W X Ctx Err) (cs : List (telemetry_metric.Call W X Ctx))
    (h : ∀ c ∈ cs, ∀ L, ((c.build env L : _ × Option Err)).2 = none)
    (acc : List (metric.Option X)) :
    ((cs.map (telemetry_metric.Call.build env)).foldl (fun L o => (o L).1) acc).length =
      acc.length + (cs.map telemetry_metric.Call.entries).sum := by
  induction cs generalizing acc with
  | nil => simp
  | cons c rest ih =>
      have hc := h c (List.mem_cons_self _ _) acc
      simp only [List.map_cons, List.foldl_cons, List.sum_cons]
      rw [ih (fun c1 h1 => h c1 (List.mem_cons_of_mem _ h1))]
      rcases telemetry_metric.metric_call_shape env c acc with ⟨err, he⟩ | ⟨t, he, hl, _⟩
      · rw [he] at hc; cases hc
      · rw [he]; simp; omega

/-- C3, as the code has it: when all `N` options built from the constructors of the
package succeed, the list handed to the SDK constructor has length `N` for the trace
builder; for the metrics builder its length is the sum of the entries of the options, one
for each exporter or resource option and `len(opts)` for each passthrough option.  When a
builder returns an error, no list is handed to the SDK constructor. -/
theorem C3_list_length_when_all_succeed {W X S Ctx Err P Q : Type}
    (envT : telemetry_trace.Env W X Ctx Err) (envM : telemetry_metric.Env W X Ctx Err)
    (sdkT : List (trace.TracerProviderOption X S) → P) (sdkM : List (metric.Option X) → Q)
    (csT : List (telemetry_trace.Call W X S Ctx)) (csM : List (telemetry_metric.Call W X Ctx))
    (hT : ∀ c ∈ csT, ∀ L, ((c.build envT L : _ × Option Err)).2 = none)
    (hM : ∀ c ∈ csM, ∀ L, ((c.build envM L : _ × Option Err)).2 = none) :
    (∃ l, (telemetry_trace.NewTracerProvider sdkT
        (csT.map (telemetry_trace.Call.build envT))).sdkCalls = [l] ∧
      l.length = csT.length) ∧
    (∃ l, (telemetry_metric.NewMeterProvider sdkM
        (csM.map (telemetry_metric.Call.build envM))).sdkCalls = [l] ∧
      l.length = (csM.map telemetry_metric.Call.entries).sum) ∧
    (∀ cs : List (telemetry_trace.Call W X S Ctx),
      (telemetry_trace.NewTracerProvider sdkT
        (cs.map (telemetry_trace.Call.build envT))).err ≠ none →
      (telemetry_trace.NewTracerProvider sdkT
        (cs.map (telemetry_trace.Call.build envT))).sdkCalls = []) ∧
    (∀ cs : List (telemetry_metric.Call W X Ctx),
      (telemetry_metric.NewMeterProvider sdkM
        (cs.map (telemetry_metric.Call.build envM))).err ≠ none →
      (telemetry_metric.NewMeterProvider sdkM
        (cs.map (telemetry_metric.Call.build envM))).sdkCalls = []) := by
  have h1 := telemetry_trace.loop_of_all_succeed sdkT
    (csT.map (telemetry_trace.Call.build envT))
    (by
      intro op hop L
      rcases List.mem_map.1 hop with ⟨c, hc, rfl⟩
      exact hT c hc L) 0 [] []
  have h2 := telemetry_trace.loop_of_all_succeed sdkM
    (csM.map (telemetry_metric.Call.build envM))
    (by
      intro op hop L
      rcases List.mem_map.1 hop with ⟨c, hc, rfl⟩
      exact hM c hc L) 0 [] []
  refine ⟨?_, ?_, ?_, ?_⟩
  · refine ⟨(csT.map (telemetry_trace.Call.build envT)).foldl (fun L o => (o L).1) [],
      ?_, ?_⟩
    · rw [telemetry_trace.NewTracerProvider, h1]
    · rw [telemetry_trace.trace_foldl_build_length envT csT hT]; simp
  · refine ⟨(csM.map (telemetry_metric.Call.build envM)).foldl (fun L o => (o L).1) [],
      ?_, ?_⟩
    · rw [telemetry_metric.NewMeterProvider, telemetry_metric.loop_eq_trace_loop, h2]
    · rw [telemetry_metric.metric_foldl_build_length envM csM hM]; simp
  · intro cs herr
    exact telemetry_trace.loop_sdkCalls_of_err sdkT _ 0 [] [] herr
  · intro cs herr
    simp only [telemetry_metric.NewMeterProvider, telemetry_metric.loop_eq_trace_loop]
      at herr ⊢
    exact telemetry_trace.loop_sdkCalls_of_err sdkM _ 0 [] [] herr

/-- Witness of C3: resource, console exporter and sampler for the trace builder; console
exporter and a passthrough of two raw options for the metrics builder. -/
theorem C3_list_length_when_all_succeed_witness :
    (∃ l, (telemetry_trace.NewTracerProvider (fun l => l)
        (([telemetry_trace.Call.WithResource "test_service" "v0.0.0" "dev",
           telemetry_trace.Call.WithConsoleExporter "stdout",
           telemetry_trace.Call.WithSampler "AlwaysSample"]
            : List (telemetry_trace.Call String String String Unit)).map
          (telemetry_trace.Call.build telemetry.sample.traceEnvOk))).sdkCalls = [l] ∧
      l.length = 3) ∧
    (∃ l, (telemetry_metric.NewMeterProvider (fun l => l)
        (([telemetry_metric.Call.WithConsoleExporter "stdout",
           telemetry_metric.Call.WithOpentelemetryMetricOption
             [metric.Option.Other "a", metric.Option.Other "b"]]
            : List (telemetry_metric.Call String String Unit)).map
          (telemetry_metric.Call.build telemetry.sample.metricEnvOk))).sdkCalls = [l] ∧
      l.length = 3) := by
  have h := C3_list_length_when_all_succeed telemetry.sample.traceEnvOk
    telemetry.sample.metricEnvOk (fun l => l) (fun l => l)
    [telemetry_trace.Call.WithResource "test_service" "v0.0.0" "dev",
     telemetry_trace.Call.WithConsoleExporter "stdout",
     telemetry_trace.Call.WithSampler "AlwaysSample"]
    [telemetry_metric.Call.WithConsoleExporter "stdout",
     telemetry_metric.Call.WithOpentelemetryMetricOption
       [metric.Option.Other "a", metric.Option.Other "b"]]
    (by
      intro c hc L
      simp at hc
      rcases hc with rfl | rfl | rfl <;> rfl)
    (by
      intro c hc L
      simp at hc
      rcases hc with rfl | rfl <;> rfl)
  exact ⟨h.1, h.2.1⟩

/-- C3 as stated fails: one metrics passthrough option carrying two raw options succeeds
(`N = 1`, one option succeeds), and the list handed to the SDK constructor has two
entries.  Also, of the three trace options resource, Zipkin exporter, sampler with an
unusable Zipkin collector, two succeed on their own, yet the builder stops at the second
and hands no list to the SDK constructor. -/
theorem C3_passthrough_breaks_length :
    (∀ L : List (metric.Option String),
      ((telemetry_metric.Call.build telemetry.sample.metricEnvOk
        (telemetry_metric.Call.WithOpentelemetryMetricOption
          [metric.Option.Other "a", metric.Option.Other "b"]) L
        : List (metric.Option String) × Option String)).2 = none) ∧
    (telemetry_metric.NewMeterProvider (fun l => l)
      [telemetry_metric.Call.build telemetry.sample.metricEnvOk
        (telemetry_metric.Call.WithOpentelemetryMetricOption
          [metric.Option.Other "a", metric.Option.Other "b"])]).sdkCalls
      = [[metric.Option.Other "a", metric.Option.Other "b"]] ∧
    ([metric.Option.Other "a", metric.Option.Other "b"] : List (metric.Option String)).length
      ≠ [telemetry_metric.Call.build telemetry.sample.metricEnvOk
          (telemetry_metric.Call.WithOpentelemetryMetricOption
            [metric.Option.Other "a", metric.Option.Other "b"])].length ∧
    (∀ L : List (trace.TracerProviderOption String String),
      ((telemetry_trace.Call.build telemetry.sample.traceEnvZipkinDown
          (telemetry_trace.Call.WithResource "svc" "v1" "dev") L
          : List (trace.TracerProviderOption String String) × Option String)).2 = none ∧
      ((telemetry_trace.Call.build telemetry.sample.traceEnvZipkinDown
          (telemetry_trace.Call.WithSampler "AlwaysSample") L
          : List (trace.TracerProviderOption String String) × Option String)).2 = none) ∧
    (telemetry_trace.NewTracerProvider (fun l => l)
      (([telemetry_trace.Call.WithResource "svc" "v1" "dev",
         telemetry_trace.Call.WithZipkinExporter "zipkin:9411",
         telemetry_trace.Call.WithSampler "AlwaysSample"]
          : List (telemetry_trace.Call String String String Unit)).map
        (telemetry_trace.Call.build telemetry.sample.traceEnvZipkinDown))).sdkCalls = [] := by
  refine ⟨fun _ => rfl, ?_, by decide, fun _ => ⟨rfl, rfl⟩, ?_⟩
  · rfl
  · rfl
